import Mathlib

/-!
Shallow embedding of the location-acquisition and mode-arbitration controller
of the try-leaflet-tma repository (src/src/App.tsx).  JavaScript numbers are
modelled as `JsNum` (a finite rational, NaN, or a signed infinity); React
`useState`/`useRef` cells are fields of an explicit `AppState` record, and each
event handler of the component becomes a pure state-transition function that
additionally returns the list of map-view commands (`setView` / `panTo`) it
issued to the Leaflet presentation layer.
-/

namespace TryLeafletTma

/-- A JavaScript number: either a finite value (modelled as a rational) or one
of the non-finite values NaN, +Infinity, -Infinity. -/
inductive JsNum where
  | fin (q : ℚ)
  | nan
  | posInf
  | negInf
deriving DecidableEq, Repr

/-- `Number.isFinite` on a `JsNum`. -/
def JsNum.isFinite : JsNum → Bool
  | JsNum.fin _ => true
  | _ => false

/-- The finite value carried by a `JsNum`; 0 for the non-finite values (only
ever used under an `isFinite` guard, mirroring the source's guards). -/
def JsNum.toQ : JsNum → ℚ
  | JsNum.fin q => q
  | _ => 0

/-- `const DEFAULT_ACCURACY = 25` (src/src/App.tsx line 18). -/
def DEFAULT_ACCURACY : ℚ := 25

/-- `const GEO_PERMISSION_DENIED = 1` (line 20). -/
def GEO_PERMISSION_DENIED : Int := 1

/-- `const GEO_POSITION_UNAVAILABLE = 2` (line 21). -/
def GEO_POSITION_UNAVAILABLE : Int := 2

/-- `const GEO_TIMEOUT = 3` (line 22). -/
def GEO_TIMEOUT : Int := 3

/-- The mode union type `"gps" | "simulated"`. -/
inductive Mode where
  | gps
  | simulated
deriving DecidableEq, Repr

/-- The location source union type `"telegram" | "navigator" | "none"` held in
`locationSourceRef`. -/
inductive LocationSource where
  | telegram
  | navigator
  | noSource
deriving DecidableEq, Repr

/-- The `Position` record `{ lat, lng, accuracy }` (lines 59-63).  The handlers
only ever store finite coordinates, so the fields are rationals. -/
structure Position where
  lat : ℚ
  lng : ℚ
  accuracy : ℚ
deriving DecidableEq, Repr

/-- The `LocationPreset` record (lines 24-30). -/
structure LocationPreset where
  id : String
  label : String
  lat : ℚ
  lng : ℚ
  isCurrent : Bool
deriving DecidableEq, Repr

/-- `LOCATION_PRESETS` (lines 32-51). -/
def LOCATION_PRESETS : List LocationPreset :=
  [ ⟨"current", "- Current location -", 0, 0, true⟩,
    ⟨"san-francisco", "San Francisco", (37774929 : ℚ) / 1000000, (-122419416 : ℚ) / 1000000, false⟩,
    ⟨"new-york", "New York City", (40712776 : ℚ) / 1000000, (-74005974 : ℚ) / 1000000, false⟩,
    ⟨"london", "London", (51507351 : ℚ) / 1000000, (-127758 : ℚ) / 1000000, false⟩,
    ⟨"tokyo", "Tokyo", (35676422 : ℚ) / 1000000, (139650109 : ℚ) / 1000000, false⟩,
    ⟨"paris", "Paris", (48856613 : ℚ) / 1000000, (2352222 : ℚ) / 1000000, false⟩,
    ⟨"sydney", "Sydney", (-3386882 : ℚ) / 100000, (151209296 : ℚ) / 1000000, false⟩ ]

/-- A map-view command issued to Leaflet: `mapRef.current.setView(latLng, …)`
(re-center) or `mapRef.current.panTo(latLng)` (pan). -/
inductive MapCmd where
  | setView (lat lng : ℚ)
  | panTo (lat lng : ℚ)
deriving DecidableEq, Repr

/-- The component state: the `useRef` cells and `useState` cells of `App`
read or written by the location controller.  Leaflet objects are abstracted
to their observable content: `mapPresent` - whether `mapRef.current` is
non-null, `markerRef` - whether a marker exists, `accuracyCircleRef` - the
radius of the accuracy circle when one exists. -/
structure AppState where
  mapPresent : Bool
  markerRef : Bool
  accuracyCircleRef : Option ℚ
  centeredRef : Bool
  watchIdRef : Option Nat
  modeRef : Mode
  lastGpsPositionRef : Option Position
  selectedLocationRef : String
  locationSourceRef : LocationSource
  statusMessage : String
  position : Option Position
  mode : Mode
  selectedLocationId : String
  draftLat : String
  draftLng : String
deriving DecidableEq, Repr

/-- Host-JavaScript primitives the component uses on strings: `Number(s)` on a
trimmed non-empty string, and `q.toFixed(6)`.  They are parameters of the
embedding; no claim depends on their internals. -/
structure JsEnv where
  jsNumber : String → JsNum
  toFixed6 : ℚ → String

/-- The JavaScript `value.trim()` used by `parseNumber`: strip leading and
trailing whitespace characters. -/
def jsTrim (value : String) : String :=
  ⟨((value.data.dropWhile Char.isWhitespace).reverse.dropWhile
      Char.isWhitespace).reverse⟩

/-- `parseNumber` (lines 89-97): trim, reject the empty string, apply
`Number`, and keep the result only when it is finite. -/
def parseNumber (env : JsEnv) (value : String) : Option ℚ :=
  let trimmed := jsTrim value
  if trimmed = "" then none
  else
    match env.jsNumber trimmed with
    | JsNum.fin q => some q
    | _ => none

/-- `isLatValid` (line 101): the draft latitude parses and lies in [-90, 90]. -/
def isLatValid (env : JsEnv) (st : AppState) : Bool :=
  match parseNumber env st.draftLat with
  | some q => decide (-90 ≤ q) && decide (q ≤ 90)
  | none => false

/-- `isLngValid` (lines 102-103): the draft longitude parses and lies in
[-180, 180]. -/
def isLngValid (env : JsEnv) (st : AppState) : Bool :=
  match parseNumber env st.draftLng with
  | some q => decide (-180 ≤ q) && decide (q ≤ 180)
  | none => false

/-- `coordinatesValid` (line 104). -/
def coordinatesValid (env : JsEnv) (st : AppState) : Bool :=
  isLatValid env st && isLngValid env st

/-- `updateMapElements` (lines 106-141): place/move the marker and accuracy
circle, then `setView` (re-center) if `centeredRef` is unset, else `panTo`. -/
def updateMapElements (lat lng accuracy : ℚ) (st : AppState) : AppState × List MapCmd :=
  if st.mapPresent = false then (st, [])
  else
    let st1 := { st with markerRef := true, accuracyCircleRef := some accuracy }
    if st1.centeredRef = false then
      ({ st1 with centeredRef := true }, [MapCmd.setView lat lng])
    else
      (st1, [MapCmd.panTo lat lng])

/-- The accuracy normalisation of `handleLocationSuccess` (lines 149-152):
`Math.max(Number.isFinite(accuracy) ? Number(accuracy) : DEFAULT_ACCURACY, 5)`,
where a missing argument (`none`) behaves like a non-finite one. -/
def normalizeAccuracy (accuracy : Option JsNum) : ℚ :=
  max (match accuracy with
        | some (JsNum.fin a) => a
        | _ => DEFAULT_ACCURACY) 5

/-- `handleLocationSuccess` (lines 143-176): ignore non-finite coordinates;
otherwise cache the normalised reading in `lastGpsPositionRef`, mirror it into
the draft fields when in GPS mode with the "current" preset selected, and - in
GPS mode only - publish it as the canonical position, set the tracking status,
and update the map. -/
def handleLocationSuccess (env : JsEnv) (lat lng : JsNum) (accuracy : Option JsNum)
    (st : AppState) : AppState × List MapCmd :=
  match lat, lng with
  | JsNum.fin la, JsNum.fin lo =>
      let nextPosition : Position := ⟨la, lo, normalizeAccuracy accuracy⟩
      let st1 := { st with lastGpsPositionRef := some nextPosition }
      let st2 :=
        if st1.modeRef = Mode.gps ∧ st1.selectedLocationRef = "current" then
          { st1 with draftLat := env.toFixed6 la, draftLng := env.toFixed6 lo }
        else st1
      if st2.modeRef = Mode.gps then
        updateMapElements la lo nextPosition.accuracy
          { st2 with
            position := some nextPosition
            statusMessage := "Tracking your position" }
      else (st2, [])
  | _, _ => (st, [])

/-- The provider error value inspected by `handleLocationError`: `isObject`
models `error && typeof error === "object"`; `name`, `message` and `code` are
the properties the handler reads (absent properties are `none`). -/
structure LocError where
  isObject : Bool
  name : Option String
  message : Option String
  code : Option Int
deriving DecidableEq, Repr

/-- The `lastGpsPositionRef`-dependent fallback text of `handleLocationError`
(lines 184-186). -/
def fallbackMessage (st : AppState) : String :=
  match st.lastGpsPositionRef with
  | some _ => "Using last known location (GPS unavailable)"
  | none => "Unable to retrieve your location right now."

/-- The `if (message)` tail of `handleLocationError` (lines 220-226): a
non-empty `message` property is shown verbatim, otherwise the fallback. -/
def messagePart (e : LocError) (st : AppState) : Option String :=
  match e.message with
  | some m => if m = "" then some (fallbackMessage st) else some m
  | none => some (fallbackMessage st)

/-- The status text chosen by the body of `handleLocationError`
(lines 184-226), `none` when the handler leaves the status untouched
(the `ConcurrentCallError` branch). -/
def errorStatus (e : LocError) (st : AppState) : Option String :=
  if e.isObject = false then some (fallbackMessage st)
  else if e.name = some "AccessDeniedError" then
    some "Location access denied. Enable location sharing in Telegram."
  else if e.name = some "NotAvailableError" then
    some "Location tracking is unavailable on this device."
  else if e.name = some "ConcurrentCallError" then none
  else
    match e.code with
    | some code =>
        if code = GEO_PERMISSION_DENIED then
          some "Location access denied. Enable GPS to continue."
        else if code = GEO_POSITION_UNAVAILABLE ∨ code = GEO_TIMEOUT then
          some (fallbackMessage st)
        else messagePart e st
    | none => messagePart e st

/-- `handleLocationError` (lines 178-229): a no-op outside GPS mode; otherwise
its only effect is to set the status message chosen by `errorStatus`. -/
def handleLocationError (e : LocError) (st : AppState) : AppState :=
  if st.modeRef = Mode.gps then
    match errorStatus e st with
    | some m => { st with statusMessage := m }
    | none => st
  else st

/-- `applySimulatedPosition` (lines 231-244): ignore non-finite coordinates;
otherwise clear the centering flag, publish the position with
`DEFAULT_ACCURACY`, set the simulating status, and update the map. -/
def applySimulatedPosition (lat lng : JsNum) (label : Option String)
    (st : AppState) : AppState × List MapCmd :=
  match lat, lng with
  | JsNum.fin la, JsNum.fin lo =>
      let statusText :=
        match label with
        | some l => if l = "" then "Simulating location" else "Simulating: " ++ l
        | none => "Simulating location"
      updateMapElements la lo DEFAULT_ACCURACY
        { st with
          centeredRef := false
          position := some ⟨la, lo, DEFAULT_ACCURACY⟩
          statusMessage := statusText }
  | _, _ => (st, [])

/-- `applyGpsPosition` (lines 432-445): publish a cached reading (if any) as
the canonical position after clearing the centering flag; the Boolean reports
whether anything was applied. -/
def applyGpsPosition (incoming : Option Position) (fallbackLabel : String)
    (st : AppState) : AppState × List MapCmd × Bool :=
  match incoming with
  | none => (st, [], false)
  | some p =>
      let st1 :=
        { st with
          centeredRef := false
          position := some p
          statusMessage := fallbackLabel }
      let r := updateMapElements p.lat p.lng p.accuracy st1
      (r.1, r.2, true)

/-- `handleModeChange` (lines 447-483).  Into GPS mode: re-apply the cached
live reading, or clear the position and show a waiting status when no cache
exists.  Into simulated mode: seed the draft fields from the cache (or current
position), force the "current" preset, and show the simulator-ready status. -/
def handleModeChange (env : JsEnv) (nextMode : Mode) (st : AppState) :
    AppState × List MapCmd :=
  if st.mode = nextMode then (st, [])
  else
    let st0 := { st with modeRef := nextMode }
    if nextMode = Mode.gps then
      let r := applyGpsPosition st0.lastGpsPositionRef "Tracking your position" st0
      if r.2.2 = false then
        ({ r.1 with
            centeredRef := false
            position := none
            statusMessage :=
              if st0.locationSourceRef = LocationSource.telegram then
                "Waiting for Telegram location…"
              else "Waiting for GPS signal…"
            mode := nextMode }, r.2.1)
      else ({ r.1 with mode := nextMode }, r.2.1)
    else
      let reference := st0.lastGpsPositionRef.orElse fun _ => st0.position
      let st1 :=
        match reference with
        | some p =>
            { st0 with
              draftLat := env.toFixed6 p.lat
              draftLng := env.toFixed6 p.lng }
        | none => st0
      let st2 :=
        if st1.selectedLocationId ≠ "current" then
          { st1 with selectedLocationId := "current", selectedLocationRef := "current" }
        else st1
      ({ st2 with
          statusMessage := "Simulator ready — edit coordinates or choose a preset"
          mode := nextMode }, [])

/-- `handleManageClick` (lines 519-533): a no-op unless both drafts parse and
are valid; otherwise apply the parsed coordinates as a simulated position
labelled by the selected preset ("Current location" for the sentinel,
"Custom location" when no preset matches). -/
def handleManageClick (env : JsEnv) (st : AppState) : AppState × List MapCmd :=
  match parseNumber env st.draftLat, parseNumber env st.draftLng with
  | some la, some lo =>
      if coordinatesValid env st = false then (st, [])
      else
        let presetLabel :=
          (LOCATION_PRESETS.find? fun item => item.id == st.selectedLocationId).map
            LocationPreset.label
        let label :=
          if st.selectedLocationId = "current" then "Current location"
          else presetLabel.getD "Custom location"
        applySimulatedPosition (JsNum.fin la) (JsNum.fin lo) (some label) st
  | _, _ => (st, [])

/-- The closure state `controller` of `startTelegramTracking` (lines 297-305):
`stopped`, whether `controller.request` is non-null, and whether
`controller.timerId` is non-null. -/
structure TgController where
  stopped : Bool
  requestPending : Bool
  timerPending : Bool
deriving DecidableEq, Repr

/-- The Telegram provider instance: its polling controller, whether this
component mounted the location manager (`mountedByUs`), whether the manager is
currently mounted, and the component state it updates through its callbacks. -/
structure TgState where
  controller : TgController
  mountedByUs : Bool
  isMounted : Bool
  app : AppState
deriving DecidableEq, Repr

/-- The `stop` closure of `startTelegramTracking` (lines 307-317): mark the
controller stopped, clear the pending timer, abort the in-flight request,
unmount the manager if this component mounted it, and reset the recorded
location source. -/
def stop (s : TgState) : TgState :=
  let c1 :=
    { stopped := true
      timerPending := false
      requestPending := false : TgController }
  let isMounted1 := if s.mountedByUs ∧ s.isMounted then false else s.isMounted
  { s with
    controller := c1
    isMounted := isMounted1
    app := { s.app with locationSourceRef := LocationSource.noSource } }

/-- How one `locationManager.requestLocation()` call settles: a resolved
location object whose `latitude` / `longitude` / `horizontal_accuracy` fields
have already been passed through `Number(...)` (lines 334-336), or a
rejection. -/
inductive TgPollOutcome where
  | success (latitude longitude horizontal_accuracy : JsNum)
  | failure (e : LocError)
deriving DecidableEq, Repr

/-- `new Error("Invalid location data received from Telegram.")` (lines
341-343): name "Error", the given message, no numeric code. -/
def invalidTelegramDataError : LocError :=
  { isObject := true
    name := some "Error"
    message := some "Invalid location data received from Telegram."
    code := none }

/-- The continuation of `poll` (lines 319-360) after its awaited
`requestLocation()` settles: clear `controller.request`, discard the outcome
entirely when the controller has been stopped, otherwise dispatch finite
readings to `handleLocationSuccess`, malformed ones to `handleLocationError`
with `invalidTelegramDataError`, rejections to `handleLocationError`, and
(in the `finally` block) schedule the next poll tick. -/
def pollComplete (env : JsEnv) (outcome : TgPollOutcome) (s : TgState) :
    TgState × List MapCmd :=
  match outcome with
  | TgPollOutcome.success la lo acc =>
      let s1 := { s with controller := { s.controller with requestPending := false } }
      if s1.controller.stopped then (s1, [])
      else
        let r :=
          if la.isFinite && lo.isFinite then
            handleLocationSuccess env la lo (some acc) s1.app
          else
            (handleLocationError invalidTelegramDataError s1.app, [])
        ({ s1 with
            app := r.1
            controller := { s1.controller with timerPending := true } }, r.2)
  | TgPollOutcome.failure e =>
      let s1 := { s with controller := { s.controller with requestPending := false } }
      if s1.controller.stopped then (s1, [])
      else
        ({ s1 with
            app := handleLocationError e s1.app
            controller := { s1.controller with timerPending := true } }, [])

/-- The environment probed by the startup effect: the synchronous capability
answers of `locationManager`, how `locationManager.mount()` settles (`none`
for success, `some e` for a throw), whether `navigator.geolocation` exists,
and the watch id `watchPosition` returns. -/
structure ProviderEnv where
  telegramIsSupported : Bool
  telegramIsMounted : Bool
  mountIsAvailable : Bool
  mountFailure : Option LocError
  navigatorGeolocation : Bool
  watchId : Nat
deriving DecidableEq, Repr

/-- `startTelegramTracking` (lines 272-367) up to the point where polling
begins: report `false` when unsupported or when mounting is unavailable or
fails (routing a mount failure through `handleLocationError`); on success set
the waiting status, record the telegram source, and report `true`. -/
def startTelegramTracking (penv : ProviderEnv) (st : AppState) : AppState × Bool :=
  if penv.telegramIsSupported = false then (st, false)
  else if penv.telegramIsMounted then
    ({ st with
        statusMessage := "Waiting for Telegram location…"
        locationSourceRef := LocationSource.telegram }, true)
  else if penv.mountIsAvailable = false then (st, false)
  else
    let st1 := { st with statusMessage := "Connecting to Telegram location…" }
    match penv.mountFailure with
    | some e => (handleLocationError e st1, false)
    | none =>
        ({ st1 with
            statusMessage := "Waiting for Telegram location…"
            locationSourceRef := LocationSource.telegram }, true)

/-- `startNavigatorTracking` (lines 369-401): report `false` when
`navigator.geolocation` is absent; otherwise set the waiting status, record
the watch id and the navigator source, and report `true`. -/
def startNavigatorTracking (penv : ProviderEnv) (st : AppState) : AppState × Bool :=
  if penv.navigatorGeolocation = false then (st, false)
  else
    ({ st with
        statusMessage := "Waiting for GPS signal…"
        watchIdRef := some penv.watchId
        locationSourceRef := LocationSource.navigator }, true)

/-- A provider-start attempt recorded by the startup effect. -/
inductive ProviderAttempt where
  | telegram
  | navigator
deriving DecidableEq, Repr

/-- The startup IIFE of the mount effect (lines 403-413): try Telegram first;
only if it did not start, try navigator exactly once; if that also fails, show
the final unsupported-device status.  The returned list records the provider
attempts in order. -/
def startupEffect (penv : ProviderEnv) (st : AppState) : AppState × List ProviderAttempt :=
  let r := startTelegramTracking penv st
  if r.2 then (r.1, [ProviderAttempt.telegram])
  else
    let r2 := startNavigatorTracking penv r.1
    if r2.2 then (r2.1, [ProviderAttempt.telegram, ProviderAttempt.navigator])
    else
      ({ r2.1 with statusMessage := "Geolocation is not supported on this device" },
        [ProviderAttempt.telegram, ProviderAttempt.navigator])

/-! ### Concrete fixtures used by witnesses and counterexamples -/

/-- A concrete `JsEnv` interpreting the handful of numeric strings the
witnesses feed through `Number(...)`. -/
def testEnv : JsEnv :=
  { jsNumber := fun s =>
      if s = "10" then JsNum.fin 10
      else if s = "20" then JsNum.fin 20
      else if s = "3" then JsNum.fin 3
      else if s = "1000" then JsNum.fin 1000
      else JsNum.nan
    toFixed6 := fun _ => "0.000000" }

/-- The component state right after the mount effect has created the map:
the initial `useState` / `useRef` values of `App` (lines 66-84) with
`mapPresent` set. -/
def initialState : AppState :=
  { mapPresent := true
    markerRef := false
    accuracyCircleRef := none
    centeredRef := false
    watchIdRef := none
    modeRef := Mode.gps
    lastGpsPositionRef := none
    selectedLocationRef := "current"
    locationSourceRef := LocationSource.noSource
    statusMessage := "Requesting location…"
    position := none
    mode := Mode.gps
    selectedLocationId := "current"
    draftLat := ""
    draftLng := "" }

/-! ### Frame lemmas shared by the claim proofs -/

theorem updateMapElements_position (lat lng acc : ℚ) (st : AppState) :
    (updateMapElements lat lng acc st).1.position = st.position := by
  unfold updateMapElements
  by_cases h1 : st.mapPresent = false <;> by_cases h2 : st.centeredRef = false <;>
    simp [h1, h2]

theorem updateMapElements_lastGps (lat lng acc : ℚ) (st : AppState) :
    (updateMapElements lat lng acc st).1.lastGpsPositionRef = st.lastGpsPositionRef := by
  unfold updateMapElements
  by_cases h1 : st.mapPresent = false <;> by_cases h2 : st.centeredRef = false <;>
    simp [h1, h2]

theorem updateMapElements_statusMessage (lat lng acc : ℚ) (st : AppState) :
    (updateMapElements lat lng acc st).1.statusMessage = st.statusMessage := by
  unfold updateMapElements
  by_cases h1 : st.mapPresent = false <;> by_cases h2 : st.centeredRef = false <;>
    simp [h1, h2]

theorem updateMapElements_mode (lat lng acc : ℚ) (st : AppState) :
    (updateMapElements lat lng acc st).1.mode = st.mode := by
  unfold updateMapElements
  by_cases h1 : st.mapPresent = false <;> by_cases h2 : st.centeredRef = false <;>
    simp [h1, h2]

theorem updateMapElements_modeRef (lat lng acc : ℚ) (st : AppState) :
    (updateMapElements lat lng acc st).1.modeRef = st.modeRef := by
  unfold updateMapElements
  by_cases h1 : st.mapPresent = false <;> by_cases h2 : st.centeredRef = false <;>
    simp [h1, h2]

theorem applySimulatedPosition_position (la lo : ℚ) (label : Option String)
    (st : AppState) :
    (applySimulatedPosition (JsNum.fin la) (JsNum.fin lo) label st).1.position =
      some ⟨la, lo, DEFAULT_ACCURACY⟩ := by
  unfold applySimulatedPosition
  exact updateMapElements_position la lo DEFAULT_ACCURACY _

theorem applySimulatedPosition_lastGps (lat lng : JsNum) (label : Option String)
    (st : AppState) :
    (applySimulatedPosition lat lng label st).1.lastGpsPositionRef =
      st.lastGpsPositionRef := by
  unfold applySimulatedPosition
  cases lat <;> cases lng <;>
    first
      | rfl
      | exact updateMapElements_lastGps _ _ DEFAULT_ACCURACY _

theorem applySimulatedPosition_mode (lat lng : JsNum) (label : Option String)
    (st : AppState) :
    (applySimulatedPosition lat lng label st).1.mode = st.mode := by
  unfold applySimulatedPosition
  cases lat <;> cases lng <;>
    first
      | rfl
      | exact updateMapElements_mode _ _ DEFAULT_ACCURACY _

theorem applySimulatedPosition_modeRef (lat lng : JsNum) (label : Option String)
    (st : AppState) :
    (applySimulatedPosition lat lng label st).1.modeRef = st.modeRef := by
  unfold applySimulatedPosition
  cases lat <;> cases lng <;>
    first
      | rfl
      | exact updateMapElements_modeRef _ _ DEFAULT_ACCURACY _

theorem handleLocationSuccess_gps (env : JsEnv) (la lo : ℚ) (acc : Option JsNum)
    (st : AppState) (h : st.modeRef = Mode.gps) :
    (handleLocationSuccess env (JsNum.fin la) (JsNum.fin lo) acc st).1.position =
        some ⟨la, lo, normalizeAccuracy acc⟩ ∧
    (handleLocationSuccess env (JsNum.fin la) (JsNum.fin lo) acc st).1.lastGpsPositionRef =
        some ⟨la, lo, normalizeAccuracy acc⟩ ∧
    (handleLocationSuccess env (JsNum.fin la) (JsNum.fin lo) acc st).1.mode = st.mode ∧
    (handleLocationSuccess env (JsNum.fin la) (JsNum.fin lo) acc st).1.modeRef = st.modeRef := by
  unfold handleLocationSuccess
  by_cases hsel : st.selectedLocationRef = "current" <;>
    simp [h, hsel, updateMapElements_position, updateMapElements_lastGps,
      updateMapElements_mode, updateMapElements_modeRef]

theorem handleModeChange_to_simulated (env : JsEnv) (st : AppState)
    (h : st.mode = Mode.gps) :
    (handleModeChange env Mode.simulated st).1.position = st.position ∧
    (handleModeChange env Mode.simulated st).1.lastGpsPositionRef = st.lastGpsPositionRef ∧
    (handleModeChange env Mode.simulated st).1.mode = Mode.simulated ∧
    (handleModeChange env Mode.simulated st).1.modeRef = Mode.simulated := by
  unfold handleModeChange
  cases hl : st.lastGpsPositionRef <;> cases hp : st.position <;>
    by_cases hsel : st.selectedLocationId = "current" <;>
    simp [h, hl, hp, hsel, Option.orElse]

theorem handleModeChange_to_gps_cached (env : JsEnv) (st : AppState) (p : Position)
    (h : st.mode = Mode.simulated) (hc : st.lastGpsPositionRef = some p) :
    (handleModeChange env Mode.gps st).1.position = some p := by
  unfold handleModeChange
  simp [h, hc, applyGpsPosition, updateMapElements_position]

/-- C2: from a GPS-mode state, applying a live reading R, switching to
Simulated, applying an arbitrary simulated position, and switching back to
Live with no intervening provider callback leaves the canonical position
equal to R (the first conjunct pins R down as the position the live reading
established). -/
theorem mode_round_trip (env : JsEnv) (st0 : AppState) (la lo : ℚ)
    (acc : Option JsNum) (simLat simLng : JsNum) (simLabel : Option String)
    (hmr : st0.modeRef = Mode.gps) (hm : st0.mode = Mode.gps) :
    (handleLocationSuccess env (JsNum.fin la) (JsNum.fin lo) acc st0).1.position
        = some ⟨la, lo, normalizeAccuracy acc⟩ ∧
    (handleModeChange env Mode.gps
        (applySimulatedPosition simLat simLng simLabel
          (handleModeChange env Mode.simulated
            (handleLocationSuccess env (JsNum.fin la) (JsNum.fin lo) acc st0).1).1).1).1.position
        = some ⟨la, lo, normalizeAccuracy acc⟩ := by
  obtain ⟨hp1, hg1, hmo1, hmr1⟩ := handleLocationSuccess_gps env la lo acc st0 hmr
  obtain ⟨hp2, hg2, hmo2, hmr2⟩ :=
    handleModeChange_to_simulated env _ (hmo1.trans hm)
  refine ⟨hp1, ?_⟩
  apply handleModeChange_to_gps_cached
  · rw [applySimulatedPosition_mode, hmo2]
  · rw [applySimulatedPosition_lastGps, hg2, hg1]

/-- Witness for C2: the concrete reading (1, 2) with default accuracy survives
a Simulated round trip through the simulated position (3, 4). -/
theorem mode_round_trip_witness :
    (handleLocationSuccess testEnv (JsNum.fin 1) (JsNum.fin 2) none initialState).1.position
        = some ⟨1, 2, normalizeAccuracy none⟩ ∧
    (handleModeChange testEnv Mode.gps
        (applySimulatedPosition (JsNum.fin 3) (JsNum.fin 4) none
          (handleModeChange testEnv Mode.simulated
            (handleLocationSuccess testEnv (JsNum.fin 1) (JsNum.fin 2) none
              initialState).1).1).1).1.position
        = some ⟨1, 2, normalizeAccuracy none⟩ :=
  mode_round_trip testEnv initialState 1 2 none (JsNum.fin 3) (JsNum.fin 4) none rfl rfl

/-- C1: with Mode = Simulated, a draft pair parsing to lat ∈ [-90, 90] and
lng ∈ [-180, 180] makes the confirm action (`handleManageClick`) set the
canonical position to exactly {lat, lng, accuracy = DEFAULT_ACCURACY}; when
either draft fails to parse or falls outside its range, the confirm action is
a no-op that returns the state unchanged. -/
theorem handleManageClick_spec (env : JsEnv) (st : AppState) :
    (∀ la lo : ℚ, st.mode = Mode.simulated →
        parseNumber env st.draftLat = some la → -90 ≤ la → la ≤ 90 →
        parseNumber env st.draftLng = some lo → -180 ≤ lo → lo ≤ 180 →
        (handleManageClick env st).1.position = some ⟨la, lo, DEFAULT_ACCURACY⟩) ∧
    (coordinatesValid env st = false → handleManageClick env st = (st, [])) := by
  constructor
  · intro la lo _ hlat hla1 hla2 hlng hlo1 hlo2
    have hvalid : coordinatesValid env st = true := by
      simp [coordinatesValid, isLatValid, isLngValid, hlat, hlng, hla1, hla2, hlo1, hlo2]
    unfold handleManageClick
    rw [hlat, hlng, hvalid]
    exact applySimulatedPosition_position la lo
      (some (if st.selectedLocationId = "current" then "Current location"
        else (Option.map LocationPreset.label
          (List.find? (fun item => item.id == st.selectedLocationId)
            LOCATION_PRESETS)).getD "Custom location")) st
  · intro hinvalid
    unfold handleManageClick
    cases hLat : parseNumber env st.draftLat with
    | none => rfl
    | some la =>
      cases hLng : parseNumber env st.draftLng with
      | none => rfl
      | some lo => simp [hinvalid]

/-- Witness for C1: at a concrete simulated-mode state with drafts "10" and
"20", confirmation publishes {10, 20, 25}; with out-of-range draft latitude
"1000", confirmation leaves the state untouched. -/
theorem handleManageClick_spec_witness :
    (handleManageClick testEnv
        { initialState with
            mode := Mode.simulated
            modeRef := Mode.simulated
            draftLat := "10"
            draftLng := "20" }).1.position = some ⟨10, 20, DEFAULT_ACCURACY⟩ ∧
    handleManageClick testEnv
        { initialState with
            mode := Mode.simulated
            modeRef := Mode.simulated
            draftLat := "1000"
            draftLng := "20" } =
      ({ initialState with
            mode := Mode.simulated
            modeRef := Mode.simulated
            draftLat := "1000"
            draftLng := "20" }, []) := by
  constructor
  · exact (handleManageClick_spec testEnv _).1 10 20 rfl (by decide) (by decide)
      (by decide) (by decide) (by decide) (by decide)
  · exact (handleManageClick_spec testEnv _).2 (by decide)

theorem handleLocationError_lastGps (e : LocError) (st : AppState) :
    (handleLocationError e st).lastGpsPositionRef = st.lastGpsPositionRef := by
  unfold handleLocationError
  by_cases h : st.modeRef = Mode.gps <;> cases herr : errorStatus e st <;> simp [h, herr]

theorem handleLocationError_position (e : LocError) (st : AppState) :
    (handleLocationError e st).position = st.position := by
  unfold handleLocationError
  by_cases h : st.modeRef = Mode.gps <;> cases herr : errorStatus e st <;> simp [h, herr]

theorem applyGpsPosition_lastGps (incoming : Option Position) (lbl : String)
    (st : AppState) :
    (applyGpsPosition incoming lbl st).1.lastGpsPositionRef = st.lastGpsPositionRef := by
  unfold applyGpsPosition
  cases incoming <;> simp [updateMapElements_lastGps]

theorem handleModeChange_lastGps (env : JsEnv) (m : Mode) (st : AppState) :
    (handleModeChange env m st).1.lastGpsPositionRef = st.lastGpsPositionRef := by
  unfold handleModeChange
  by_cases h0 : st.mode = m
  · simp [h0]
  · cases m
    · by_cases ha : (applyGpsPosition st.lastGpsPositionRef "Tracking your position"
          { st with modeRef := Mode.gps }).2.2 = false <;>
        simp [h0, ha, applyGpsPosition_lastGps]
    · cases hl : st.lastGpsPositionRef <;> cases hp : st.position <;>
        by_cases hsel : st.selectedLocationId = "current" <;>
        simp [h0, hl, hp, hsel, Option.orElse]

theorem handleLocationSuccess_writes_cache (env : JsEnv) (la lo : ℚ)
    (acc : Option JsNum) (st : AppState) :
    (handleLocationSuccess env (JsNum.fin la) (JsNum.fin lo) acc st).1.lastGpsPositionRef
      = some ⟨la, lo, normalizeAccuracy acc⟩ := by
  unfold handleLocationSuccess
  by_cases h1 : st.modeRef = Mode.gps <;>
    by_cases h2 : st.selectedLocationRef = "current" <;>
    simp [h1, h2, updateMapElements_lastGps]

theorem handleLocationSuccess_nonfinite_noop (env : JsEnv) (lat lng : JsNum)
    (acc : Option JsNum) (st : AppState)
    (h : (lat.isFinite && lng.isFinite) = false) :
    handleLocationSuccess env lat lng acc st = (st, []) := by
  unfold handleLocationSuccess
  cases lat <;> cases lng <;> first | rfl | simp [JsNum.isFinite] at h

theorem handleManageClick_lastGps (env : JsEnv) (st : AppState) :
    (handleManageClick env st).1.lastGpsPositionRef = st.lastGpsPositionRef := by
  unfold handleManageClick
  cases hLat : parseNumber env st.draftLat <;> cases hLng : parseNumber env st.draftLng <;>
    by_cases hv : coordinatesValid env st = false <;>
    simp [hv, applySimulatedPosition_lastGps]

theorem startTelegramTracking_lastGps (penv : ProviderEnv) (st : AppState) :
    (startTelegramTracking penv st).1.lastGpsPositionRef = st.lastGpsPositionRef := by
  unfold startTelegramTracking
  by_cases h1 : penv.telegramIsSupported = false <;>
    by_cases h2 : penv.telegramIsMounted <;>
    by_cases h3 : penv.mountIsAvailable = false <;>
    cases hm : penv.mountFailure <;>
    simp [h1, h2, h3, hm, handleLocationError_lastGps]

theorem startNavigatorTracking_lastGps (penv : ProviderEnv) (st : AppState) :
    (startNavigatorTracking penv st).1.lastGpsPositionRef = st.lastGpsPositionRef := by
  unfold startNavigatorTracking
  by_cases h : penv.navigatorGeolocation = false <;> simp [h]

theorem startupEffect_lastGps (penv : ProviderEnv) (st : AppState) :
    (startupEffect penv st).1.lastGpsPositionRef = st.lastGpsPositionRef := by
  unfold startupEffect
  by_cases h1 : (startTelegramTracking penv st).2 <;>
    by_cases h2 : (startNavigatorTracking penv (startTelegramTracking penv st).1).2 <;>
    simp [h1, h2, startTelegramTracking_lastGps, startNavigatorTracking_lastGps]

/-- C6: `lastGpsPositionRef` is an invariant-protected cache.  No
error-handling path (`handleLocationError`), mode switch (`handleModeChange`),
simulated update (`applySimulatedPosition`, `handleManageClick`), provider
teardown (`stop`), or provider startup/handoff (`startupEffect`) ever changes
it; a reading with non-finite coordinates leaves the whole state unchanged;
and the only write is a successful live reading with finite coordinates,
which overwrites the cache with the normalised reading. -/
theorem lastGpsPosition_cache_invariant (env : JsEnv) :
    (∀ e st, (handleLocationError e st).lastGpsPositionRef = st.lastGpsPositionRef) ∧
    (∀ m st, (handleModeChange env m st).1.lastGpsPositionRef = st.lastGpsPositionRef) ∧
    (∀ s, (stop s).app.lastGpsPositionRef = s.app.lastGpsPositionRef) ∧
    (∀ lat lng label st,
      (applySimulatedPosition lat lng label st).1.lastGpsPositionRef =
        st.lastGpsPositionRef) ∧
    (∀ st, (handleManageClick env st).1.lastGpsPositionRef = st.lastGpsPositionRef) ∧
    (∀ penv st, (startupEffect penv st).1.lastGpsPositionRef = st.lastGpsPositionRef) ∧
    (∀ lat lng acc st, (lat.isFinite && lng.isFinite) = false →
      (handleLocationSuccess env lat lng acc st).1.lastGpsPositionRef =
        st.lastGpsPositionRef) ∧
    (∀ la lo acc st,
      (handleLocationSuccess env (JsNum.fin la) (JsNum.fin lo) acc st).1.lastGpsPositionRef
        = some ⟨la, lo, normalizeAccuracy acc⟩) := by
  refine ⟨handleLocationError_lastGps, handleModeChange_lastGps env, fun s => rfl,
    applySimulatedPosition_lastGps, handleManageClick_lastGps env,
    startupEffect_lastGps, ?_, handleLocationSuccess_writes_cache env⟩
  intro lat lng acc st h
  rw [handleLocationSuccess_nonfinite_noop env lat lng acc st h]

/-- Witness for C6: a reading with NaN latitude leaves the empty cache of the
initial state untouched. -/
theorem lastGpsPosition_cache_invariant_witness :
    (JsNum.nan.isFinite && (JsNum.fin 2).isFinite) = false ∧
    (handleLocationSuccess testEnv JsNum.nan (JsNum.fin 2) none
        initialState).1.lastGpsPositionRef = initialState.lastGpsPositionRef :=
  ⟨by decide, (lastGpsPosition_cache_invariant testEnv).2.2.2.2.2.2.1 JsNum.nan
    (JsNum.fin 2) none initialState (by decide)⟩

/-- C7: for a live reading with finite coordinates, a finite reported
accuracy a is stored as max(a, 5) - in particular a < 5 is normalised to
exactly 5 - while a missing or non-finite accuracy is stored as
DEFAULT_ACCURACY. -/
theorem accuracy_floor (env : JsEnv) (la lo a : ℚ) (st : AppState) :
    ((handleLocationSuccess env (JsNum.fin la) (JsNum.fin lo)
        (some (JsNum.fin a)) st).1.lastGpsPositionRef = some ⟨la, lo, max a 5⟩) ∧
    (a < 5 →
      (handleLocationSuccess env (JsNum.fin la) (JsNum.fin lo)
        (some (JsNum.fin a)) st).1.lastGpsPositionRef = some ⟨la, lo, 5⟩) ∧
    (∀ acc : Option JsNum, (∀ q : ℚ, acc ≠ some (JsNum.fin q)) →
      (handleLocationSuccess env (JsNum.fin la) (JsNum.fin lo)
        acc st).1.lastGpsPositionRef = some ⟨la, lo, DEFAULT_ACCURACY⟩) := by
  have hfin : normalizeAccuracy (some (JsNum.fin a)) = max a 5 := rfl
  refine ⟨?_, ?_, ?_⟩
  · rw [handleLocationSuccess_writes_cache, hfin]
  · intro hlt
    rw [handleLocationSuccess_writes_cache, hfin, max_eq_right hlt.le]
  · intro acc hacc
    rw [handleLocationSuccess_writes_cache]
    have : normalizeAccuracy acc = DEFAULT_ACCURACY := by
      cases acc with
      | none => rfl
      | some v =>
          cases v with
          | fin q => exact absurd rfl (hacc q)
          | nan => rfl
          | posInf => rfl
          | negInf => rfl
    rw [this]

/-- Witness for C7: a reading (1, 2) with reported accuracy 3 < 5 is cached
with accuracy exactly 5, and one with NaN accuracy with DEFAULT_ACCURACY. -/
theorem accuracy_floor_witness :
    ((3 : ℚ) < 5 ∧
      (handleLocationSuccess testEnv (JsNum.fin 1) (JsNum.fin 2)
        (some (JsNum.fin 3)) initialState).1.lastGpsPositionRef = some ⟨1, 2, 5⟩) ∧
    (handleLocationSuccess testEnv (JsNum.fin 1) (JsNum.fin 2)
        (some JsNum.nan) initialState).1.lastGpsPositionRef =
      some ⟨1, 2, DEFAULT_ACCURACY⟩ :=
  ⟨⟨by norm_num, (accuracy_floor testEnv 1 2 3 initialState).2.1 (by norm_num)⟩,
    (accuracy_floor testEnv 1 2 3 initialState).2.2 (some JsNum.nan)
      (fun q h => by cases h)⟩

/-- C9: while Mode = Live, an object error named "AccessDeniedError" and a
nameless geolocation error with code 1 each yield their dedicated
permission-denial status, and - whether or not a cached reading exists - that
status differs from the transient/"using last known location" fallback text;
an object error named "ConcurrentCallError" leaves the state unchanged. -/
theorem permission_denied_taxonomy (st : AppState) (h : st.modeRef = Mode.gps) :
    (∀ e : LocError, e.isObject = true → e.name = some "AccessDeniedError" →
      (handleLocationError e st).statusMessage =
        "Location access denied. Enable location sharing in Telegram.") ∧
    (∀ e : LocError, e.isObject = true → e.name = none → e.code = some 1 →
      (handleLocationError e st).statusMessage =
        "Location access denied. Enable GPS to continue.") ∧
    (∀ e : LocError, e.isObject = true → e.name = some "ConcurrentCallError" →
      handleLocationError e st = st) ∧
    "Location access denied. Enable location sharing in Telegram." ≠
      fallbackMessage st ∧
    "Location access denied. Enable GPS to continue." ≠ fallbackMessage st := by
  refine ⟨?_, ?_, ?_, ?_, ?_⟩
  · intro e hobj hname
    unfold handleLocationError errorStatus
    simp [h, hobj, hname]
  · intro e hobj hname hcode
    unfold handleLocationError errorStatus
    simp [h, hobj, hname, hcode, GEO_PERMISSION_DENIED]
  · intro e hobj hname
    unfold handleLocationError errorStatus
    have hne1 : e.name ≠ some "AccessDeniedError" := by rw [hname]; decide
    have hne2 : e.name ≠ some "NotAvailableError" := by rw [hname]; decide
    simp [h, hobj, hname, hne1, hne2]
  · unfold fallbackMessage
    cases st.lastGpsPositionRef with
    | none => decide
    | some p =>
        show "Location access denied. Enable location sharing in Telegram." ≠
          "Using last known location (GPS unavailable)"
        decide
  · unfold fallbackMessage
    cases st.lastGpsPositionRef with
    | none => decide
    | some p =>
        show "Location access denied. Enable GPS to continue." ≠
          "Using last known location (GPS unavailable)"
        decide

/-- Witness for C9: concrete errors against the initial GPS-mode state. -/
theorem permission_denied_taxonomy_witness :
    ((handleLocationError
        { isObject := true
          name := some "AccessDeniedError"
          message := none
          code := none } initialState).statusMessage =
      "Location access denied. Enable location sharing in Telegram.") ∧
    ((handleLocationError
        { isObject := true
          name := none
          message := none
          code := some 1 } initialState).statusMessage =
      "Location access denied. Enable GPS to continue.") ∧
    (handleLocationError
        { isObject := true
          name := some "ConcurrentCallError"
          message := none
          code := none } initialState = initialState) :=
  ⟨(permission_denied_taxonomy initialState rfl).1 _ rfl rfl,
    (permission_denied_taxonomy initialState rfl).2.1 _ rfl rfl rfl,
    (permission_denied_taxonomy initialState rfl).2.2.1 _ rfl rfl⟩

/-- C10: while Mode = Simulated, the provider error handler is a complete
no-op: the returned state (status message, canonical position, cache and all
other fields) is the input state. -/
theorem simulated_mode_error_noop (e : LocError) (st : AppState)
    (h : st.modeRef = Mode.simulated) :
    handleLocationError e st = st := by
  unfold handleLocationError
  rw [h]
  rfl

/-- Witness for C10: a permission-denied error delivered in simulated mode
changes nothing. -/
theorem simulated_mode_error_noop_witness :
    handleLocationError
        { isObject := true
          name := some "AccessDeniedError"
          message := none
          code := none }
        { initialState with modeRef := Mode.simulated, mode := Mode.simulated } =
      { initialState with modeRef := Mode.simulated, mode := Mode.simulated } :=
  simulated_mode_error_noop _ _ rfl

theorem pollComplete_stopped (env : JsEnv) (outcome : TgPollOutcome) (s : TgState)
    (h : s.controller.stopped = true) :
    (pollComplete env outcome s).1.app = s.app ∧ (pollComplete env outcome s).2 = [] := by
  unfold pollComplete
  cases outcome <;> simp [h]

/-- C4: a Telegram `requestLocation` completion (resolved reading or
rejection) that fires after the provider's `stop` has been invoked is
discarded entirely: the canonical position, the status message and the cached
last reading are all those in force when `stop` ran, and no map command is
issued. -/
theorem stale_poll_discarded (env : JsEnv) (outcome : TgPollOutcome) (s : TgState) :
    (pollComplete env outcome (stop s)).1.app.position = s.app.position ∧
    (pollComplete env outcome (stop s)).1.app.statusMessage = s.app.statusMessage ∧
    (pollComplete env outcome (stop s)).1.app.lastGpsPositionRef =
      s.app.lastGpsPositionRef ∧
    (pollComplete env outcome (stop s)).2 = [] := by
  obtain ⟨happ, hcmds⟩ := pollComplete_stopped env outcome (stop s) rfl
  rw [happ, hcmds]
  exact ⟨rfl, rfl, rfl, rfl⟩

/-- C5: whenever the Telegram provider fails to start (unsupported, mounting
unavailable, or mount failure), the startup effect attempts exactly the
navigator provider next, exactly once, never re-trying Telegram - the attempt
log is exactly [telegram, navigator]; and if the navigator is also
unavailable, the final status is the not-supported message. -/
theorem provider_fallback (penv : ProviderEnv) (st : AppState)
    (h : (startTelegramTracking penv st).2 = false) :
    (startupEffect penv st).2 = [ProviderAttempt.telegram, ProviderAttempt.navigator] ∧
    (penv.navigatorGeolocation = false →
      (startupEffect penv st).1.statusMessage =
        "Geolocation is not supported on this device") := by
  constructor
  · unfold startupEffect
    by_cases h2 : (startNavigatorTracking penv (startTelegramTracking penv st).1).2 <;>
      simp [h, h2]
  · intro hn
    unfold startupEffect startNavigatorTracking
    simp [h, hn]

/-- An environment where no provider is available. -/
def noProviderEnv : ProviderEnv :=
  { telegramIsSupported := false
    telegramIsMounted := false
    mountIsAvailable := false
    mountFailure := none
    navigatorGeolocation := false
    watchId := 0 }

/-- Witness for C5: with neither provider available, the attempt log is
[telegram, navigator] and the final status is the not-supported message. -/
theorem provider_fallback_witness :
    (startupEffect noProviderEnv initialState).2 =
        [ProviderAttempt.telegram, ProviderAttempt.navigator] ∧
    (startupEffect noProviderEnv initialState).1.statusMessage =
        "Geolocation is not supported on this device" :=
  ⟨(provider_fallback noProviderEnv initialState rfl).1,
    (provider_fallback noProviderEnv initialState rfl).2 rfl⟩

/-- Counterexample to C3 as stated: enter Simulated mode from the initial
state and apply two simulated positions with no intervening mode change.  The
second application issues a `setView` (re-center) command, not the `panTo`
(pan) the claim predicts, because `applySimulatedPosition` clears
`centeredRef` on every call. -/
theorem second_simulated_apply_recenters_counterexample :
    (applySimulatedPosition (JsNum.fin 3) (JsNum.fin 4) none
        (applySimulatedPosition (JsNum.fin 1) (JsNum.fin 2) none
          (handleModeChange testEnv Mode.simulated initialState).1).1).2 =
      [MapCmd.setView 3 4] ∧
    (applySimulatedPosition (JsNum.fin 3) (JsNum.fin 4) none
        (applySimulatedPosition (JsNum.fin 1) (JsNum.fin 2) none
          (handleModeChange testEnv Mode.simulated initialState).1).1).2 ≠
      [MapCmd.panTo 3 4] := by
  constructor
  · rfl
  · decide

/-- C3 (amended): with the map mounted, every applied simulated position -
the first after a mode entry and every subsequent one alike - triggers a
re-center (`setView`) request of the presentation layer and never a pan,
because `applySimulatedPosition` clears the centering flag before drawing. -/
theorem applySimulatedPosition_always_recenters (la lo : ℚ) (label : Option String)
    (st : AppState) (h : st.mapPresent = true) :
    (applySimulatedPosition (JsNum.fin la) (JsNum.fin lo) label st).2 =
      [MapCmd.setView la lo] := by
  unfold applySimulatedPosition updateMapElements
  simp [h]

/-- Witness for the amended C3: a simulated position applied to a state whose
`centeredRef` is already set still re-centers. -/
theorem applySimulatedPosition_always_recenters_witness :
    (applySimulatedPosition (JsNum.fin 5) (JsNum.fin 6) none
        { initialState with centeredRef := true }).2 = [MapCmd.setView 5 6] :=
  applySimulatedPosition_always_recenters 5 6 none
    { initialState with centeredRef := true } rfl

/-- A live Telegram provider instance whose component already holds a cached
reading, used to exercise the malformed-reading path. -/
def cachedTgState : TgState :=
  { controller := { stopped := false, requestPending := true, timerPending := false }
    mountedByUs := false
    isMounted := true
    app :=
      { initialState with
        lastGpsPositionRef := some ⟨1, 2, 25⟩
        position := some ⟨1, 2, 25⟩ } }

/-- Counterexample to C8 as stated: a malformed (NaN latitude) Telegram
reading delivered in Live mode with a cached reading present sets the status
to the synthesized error's own message, not to the "using last known
location" variant the claim predicts. -/
theorem invalid_reading_status_counterexample :
    (pollComplete testEnv
        (TgPollOutcome.success JsNum.nan (JsNum.fin 2) JsNum.nan)
        cachedTgState).1.app.statusMessage =
      "Invalid location data received from Telegram." ∧
    (pollComplete testEnv
        (TgPollOutcome.success JsNum.nan (JsNum.fin 2) JsNum.nan)
        cachedTgState).1.app.statusMessage ≠
      "Using last known location (GPS unavailable)" := by
  constructor
  · rfl
  · decide

theorem invalid_error_status (st : AppState) (h : st.modeRef = Mode.gps) :
    (handleLocationError invalidTelegramDataError st).statusMessage =
      "Invalid location data received from Telegram." := by
  unfold handleLocationError
  rw [h]
  rfl

/-- C8 (amended): a provider reading with malformed (non-finite) coordinates
is routed through the error handler and never alters the canonical position
or the cached reading (cleared least of all); but because it is reported as
an `Error` carrying the message "Invalid location data received from
Telegram.", in Live mode the status becomes that message - not the "using
last known location" variant - whether or not a cache exists. -/
theorem invalid_reading_amended (env : JsEnv) (la lo acc : JsNum) (s : TgState)
    (hstop : s.controller.stopped = false)
    (hfin : (la.isFinite && lo.isFinite) = false) :
    (pollComplete env (TgPollOutcome.success la lo acc) s).1.app.position =
        s.app.position ∧
    (pollComplete env (TgPollOutcome.success la lo acc) s).1.app.lastGpsPositionRef =
        s.app.lastGpsPositionRef ∧
    (pollComplete env (TgPollOutcome.success la lo acc) s).2 = [] ∧
    (s.app.modeRef = Mode.gps →
      (pollComplete env (TgPollOutcome.success la lo acc) s).1.app.statusMessage =
        "Invalid location data received from Telegram.") := by
  unfold pollComplete
  simp [hstop, hfin, handleLocationError_position, handleLocationError_lastGps]
  intro hm
  exact invalid_error_status _ hm

/-- Witness for the amended C8: the malformed reading against the concrete
cached Live-mode state keeps position and cache and shows the invalid-data
message. -/
theorem invalid_reading_amended_witness :
    (pollComplete testEnv
        (TgPollOutcome.success JsNum.nan (JsNum.fin 2) JsNum.nan)
        cachedTgState).1.app.position = cachedTgState.app.position ∧
    (pollComplete testEnv
        (TgPollOutcome.success JsNum.nan (JsNum.fin 2) JsNum.nan)
        cachedTgState).1.app.lastGpsPositionRef =
      cachedTgState.app.lastGpsPositionRef ∧
    (pollComplete testEnv
        (TgPollOutcome.success JsNum.nan (JsNum.fin 2) JsNum.nan)
        cachedTgState).2 = [] ∧
    (cachedTgState.app.modeRef = Mode.gps →
      (pollComplete testEnv
          (TgPollOutcome.success JsNum.nan (JsNum.fin 2) JsNum.nan)
          cachedTgState).1.app.statusMessage =
        "Invalid location data received from Telegram.") :=
  invalid_reading_amended testEnv JsNum.nan (JsNum.fin 2) JsNum.nan cachedTgState
    rfl (by decide)

end TryLeafletTma
